import Mathlib

/-!
Shallow embedding of the simulation/control core of the ADS dam dashboard
(the `tickSimulation` callback and the order/manual-control handlers of the
main application file), together with the water-cost computation of the
order-report component.  Numeric values of the source are modelled as real
numbers; the random inflow perturbation (`Math.random`) becomes an explicit
`noise` parameter of the tick.
-/

namespace ADS

/-- `SystemMode` from the shared types module: AUTO or MANUAL. -/
inductive SystemMode
  | AUTO
  | MANUAL
deriving DecidableEq

/-- The gate-status strings used by the source:
CLOSED, OPEN, OPENING, CLOSING, 'PARTIALLY OPEN'. -/
inductive GateStatus
  | OPEN
  | CLOSED
  | OPENING
  | CLOSING
  | PARTIALLY_OPEN
deriving DecidableEq

/-- Order status.  Modelled from the spec: the `WateringOrder.status` type of
the (absent) shared types module, `status ∈ {ACTIVE, COMPLETED, CANCELLED}`;
the main file itself only ever writes the ACTIVE and COMPLETED values. -/
inductive OrderStatus
  | ACTIVE
  | COMPLETED
  | CANCELLED
deriving DecidableEq

-- Constants for Simulation Physics (top of the main file)
def MAX_WATER_LEVEL : ℝ := 12.0
def RESERVOIR_AREA : ℝ := 1000
def GATE_SPEED : ℝ := 2.0
def MAX_GATE_HEIGHT_CM : ℝ := 200

-- Motor & Power Constants
def MOTOR_POWER_ACTIVE : ℝ := 10.0
def MOTOR_POWER_STANDBY : ℝ := 0.2
def ELEC_RATE_UZS : ℝ := 1000

-- Rate constant of the order-report component (CottonOrder)
def WATER_COST_PER_M3 : ℝ := 100

/-- The telemetry snapshot held in React state (`SystemState`), minus the
wall-clock `timestamp` field, which no claim concerns. -/
structure SystemState where
  waterLevel : ℝ
  downstreamLevel : ℝ
  inflowRate : ℝ
  outflowRate : ℝ
  gateOpening : ℝ
  targetGateOpening : ℝ
  gateStatus : GateStatus
  isRaining : Bool
  rainfallIntensity : ℝ
  currentPower : ℝ
  totalEnergy : ℝ
  totalCost : ℝ

/-- `SimulationConfig`: operator setpoint and tick period (milliseconds). -/
structure SimulationConfig where
  targetLevel : ℝ
  simulationSpeed : ℝ

/-- A watering order (`WateringOrder`).  Times are naturals (`Date.now()`
milliseconds); `endTime` is optional exactly as in the source. -/
structure WateringOrder where
  id : String
  clientName : String
  hectares : ℝ
  targetVolume : ℝ
  deliveredVolume : ℝ
  startTime : ℕ
  endTime : Option ℕ
  status : OrderStatus
  powerConsumed : ℝ
  waterCost : ℝ

/-- The pair of React order slots: `activeOrder` and `lastCompletedOrder`. -/
structure OrderState where
  activeOrder : Option WateringOrder
  lastCompletedOrder : Option WateringOrder

/-! ## Control law (step 2 of `tickSimulation`) -/

/-- Step 2 of `tickSimulation`: the next target gate opening, from the
active-order flag (`activeOrderRef.current`), the mode, the configured target
level and the previous state's water level, gate opening and target. -/
noncomputable def controlTarget (hasOrder : Bool) (mode : SystemMode)
    (targetLevel waterLevel gateOpening targetGateOpening : ℝ) : ℝ :=
  if hasOrder then 100
  else if mode = SystemMode.AUTO then
    let error := waterLevel - targetLevel
    if error > 0.2 then min 100 (gateOpening + error * 5)
    else if error < -0.2 then max 0 (gateOpening - 2)
    else gateOpening
  else targetGateOpening

/-! ## Gate kinematics (step 3) -/

/-- Step 3 of `tickSimulation`: move the gate toward the target.  Returns the
new opening and the `isMoving` flag. -/
noncomputable def moveGate (gateOpening nextTargetGate : ℝ) : ℝ × Bool :=
  if |gateOpening - nextTargetGate| < GATE_SPEED then (nextTargetGate, false)
  else if gateOpening < nextTargetGate then (gateOpening + GATE_SPEED, true)
  else (gateOpening - GATE_SPEED, true)

/-- The "Determine Status" chain of `tickSimulation`, a function of the
previous and the new gate opening. -/
noncomputable def determineStatus (prevGate newGate : ℝ) : GateStatus :=
  if newGate > prevGate then GateStatus.OPENING
  else if newGate < prevGate then GateStatus.CLOSING
  else if newGate = 0 then GateStatus.CLOSED
  else if newGate = 100 then GateStatus.OPEN
  else GateStatus.PARTIALLY_OPEN

/-! ## Outflow (step 5) -/

/-- Step 5 of `tickSimulation`: outflow through the gate as a submerged
rectangular orifice, `Q = (2/3) * Cd * b * sqrt(2g) * (h2^1.5 - h1^1.5)`,
guarded to zero at (near-)zero water level or gate height. -/
noncomputable def computeOutflow (waterLevel gateOpening : ℝ) : ℝ :=
  let Cd : ℝ := 0.6
  let b : ℝ := 3.0
  let g : ℝ := 9.81
  let MAX_GATE_HEIGHT_M := MAX_GATE_HEIGHT_CM / 100
  let currentGateHeightM := (gateOpening / 100) * MAX_GATE_HEIGHT_M
  let h2 := waterLevel
  let h1 := max 0 (waterLevel - currentGateHeightM)
  if waterLevel > 0.01 ∧ currentGateHeightM > 0.01 then
    (2 / 3) * Cd * b * Real.sqrt (2 * g) * (h2 ^ (1.5 : ℝ) - h1 ^ (1.5 : ℝ))
  else 0

/-! ## The whole tick (steps 1-7 of `tickSimulation`) -/

/-- One invocation of `tickSimulation` on the telemetry snapshot.  `hasOrder`
is the truthiness of `activeOrderRef.current`; `noise` stands for the random
inflow perturbation `(Math.random() - 0.5) * 2`, a value in `[-1, 1]`. -/
noncomputable def tickSimulation (mode : SystemMode) (config : SimulationConfig)
    (hasOrder : Bool) (noise : ℝ) (prev : SystemState) : SystemState :=
  -- 1. Calculate Inflow
  let baseInflow : ℝ := 36.0
  let rainEffect : ℝ := if prev.isRaining then prev.rainfallIntensity * 0.3 else 0
  let currentInflow := max 0 (baseInflow + rainEffect + noise)
  -- 2. Control Logic
  let nextTargetGate := controlTarget hasOrder mode config.targetLevel
      prev.waterLevel prev.gateOpening prev.targetGateOpening
  -- 3. Physics: Move Gate towards Target
  let moved := moveGate prev.gateOpening nextTargetGate
  let nextGateOpening := moved.1
  let isMoving := moved.2
  -- Determine Status
  let status := determineStatus prev.gateOpening nextGateOpening
  -- 4. Power Consumption Logic
  let dtSeconds := config.simulationSpeed / 1000
  let dtHours := dtSeconds / 3600
  let currentPower := if isMoving then MOTOR_POWER_ACTIVE else MOTOR_POWER_STANDBY
  let energyConsumed := currentPower * dtHours
  let newTotalEnergy := prev.totalEnergy + energyConsumed
  let newTotalCost := newTotalEnergy * ELEC_RATE_UZS
  -- 5. Calculate Outflow
  let currentOutflow := computeOutflow prev.waterLevel nextGateOpening
  -- 6. Update Water Level
  let netFlow := currentInflow - currentOutflow
  let dH := (netFlow / RESERVOIR_AREA) * dtSeconds
  let newLevel := min MAX_WATER_LEVEL (max 0 (prev.waterLevel + dH))
  -- 7. Calculate Downstream Level
  let targetDownstream := 0.5 + currentOutflow * 0.04
  let newDownstream := prev.downstreamLevel + (targetDownstream - prev.downstreamLevel) * 0.1
  { prev with
    inflowRate := currentInflow
    outflowRate := currentOutflow
    waterLevel := newLevel
    downstreamLevel := newDownstream
    gateOpening := nextGateOpening
    targetGateOpening := nextTargetGate
    gateStatus := status
    currentPower := currentPower
    totalEnergy := newTotalEnergy
    totalCost := newTotalCost }

/-! ## Order handlers -/

/-- `handleStartOrder`: build a fresh ACTIVE order and store it in the active
slot.  The source calls `setActiveOrder` unconditionally: whatever the slot
held before is replaced. -/
noncomputable def handleStartOrder (now : ℕ) (clientName : String) (hectares : ℝ)
    (s : OrderState) : OrderState :=
  let targetVol := hectares * 1000
  let fresh : WateringOrder :=
    { id := toString now
      clientName := clientName
      hectares := hectares
      targetVolume := targetVol
      deliveredVolume := 0
      startTime := now
      endTime := none
      status := OrderStatus.ACTIVE
      powerConsumed := 0
      waterCost := 0 }
  { s with activeOrder := some fresh }

/-- `handleCancelOrder`: `setActiveOrder(null)`. -/
def handleCancelOrder (s : OrderState) : OrderState :=
  { s with activeOrder := none }

/-- Step 8 of `tickSimulation`: accumulate delivered volume and power into the
active order (the `setActiveOrder(curr => ...)` update). -/
noncomputable def tickOrderUpdate (currentOutflow currentPower dtSeconds : ℝ)
    (curr : Option WateringOrder) : Option WateringOrder :=
  match curr with
  | none => none
  | some o => some
      { o with
        deliveredVolume := o.deliveredVolume + currentOutflow * dtSeconds
        powerConsumed := o.powerConsumed + currentPower * (dtSeconds / 3600) }

/-- The "Order Completion Check" effect: when the active order's delivered
volume has reached its target and it is still ACTIVE, stamp it COMPLETED with
an end time, retain it as last completed, and clear the active slot. -/
noncomputable def orderCompletionCheck (now : ℕ) (s : OrderState) : OrderState :=
  match s.activeOrder with
  | some o =>
    if o.deliveredVolume ≥ o.targetVolume ∧ o.status = OrderStatus.ACTIVE then
      { activeOrder := none
        lastCompletedOrder := some { o with status := OrderStatus.COMPLETED, endTime := some now } }
    else s
  | none => s

/-! ## Manual jog control -/

/-- Jog direction of `startManualMove`. -/
inductive MoveDirection
  | OPEN
  | CLOSE
deriving DecidableEq

/-- The initial ±1 step of `startManualMove` (guarded to MANUAL mode). -/
noncomputable def startManualMoveInitial (mode : SystemMode) (direction : MoveDirection)
    (prev : SystemState) : SystemState :=
  if mode ≠ SystemMode.MANUAL then prev
  else if direction = MoveDirection.OPEN then
    { prev with targetGateOpening := min 100 (prev.targetGateOpening + 1) }
  else
    { prev with targetGateOpening := max 0 (prev.targetGateOpening - 1) }

/-- The repeated ±2 step of `startManualMove`'s hold timer. -/
noncomputable def startManualMoveHold (direction : MoveDirection)
    (prev : SystemState) : SystemState :=
  if direction = MoveDirection.OPEN then
    { prev with targetGateOpening := min 100 (prev.targetGateOpening + 2) }
  else
    { prev with targetGateOpening := max 0 (prev.targetGateOpening - 2) }

/-! ## Report-side water cost (CottonOrder component) -/

/-- `generatePDF`'s financial summary: the order's water cost, recomputed at
report time from the delivered volume. -/
noncomputable def reportWaterCost (order : WateringOrder) : ℝ :=
  order.deliveredVolume * WATER_COST_PER_M3

/-! ## Concrete sample values, used to evaluate the development -/

/-- A telemetry snapshot matching the initial React state, with the gate
partly open. -/
noncomputable def sampleState : SystemState :=
  { waterLevel := 5
    downstreamLevel := 0.8
    inflowRate := 36
    outflowRate := 0
    gateOpening := 40
    targetGateOpening := 50
    gateStatus := GateStatus.PARTIALLY_OPEN
    isRaining := false
    rainfallIntensity := 0
    currentPower := MOTOR_POWER_STANDBY
    totalEnergy := 0
    totalCost := 0 }

/-- A freshly started 50-hectare order. -/
noncomputable def sampleOrder : WateringOrder :=
  { id := "1"
    clientName := "Alice"
    hectares := 50
    targetVolume := 50000
    deliveredVolume := 0
    startTime := 0
    endTime := none
    status := OrderStatus.ACTIVE
    powerConsumed := 0
    waterCost := 0 }

/-- The documented bounds on a telemetry snapshot:
`0 ≤ waterLevel ≤ MAX_WATER_LEVEL` and gate opening and target in `[0, 100]`. -/
def stateBoundsOK (s : SystemState) : Prop :=
  0 ≤ s.waterLevel ∧ s.waterLevel ≤ MAX_WATER_LEVEL ∧
  0 ≤ s.gateOpening ∧ s.gateOpening ≤ 100 ∧
  0 ≤ s.targetGateOpening ∧ s.targetGateOpening ≤ 100

/-! # Theorems -/

/-- The target gate opening after a tick is the control law's output. -/
theorem tickSimulation_targetGateOpening (mode : SystemMode) (config : SimulationConfig)
    (hasOrder : Bool) (noise : ℝ) (prev : SystemState) :
    (tickSimulation mode config hasOrder noise prev).targetGateOpening =
      controlTarget hasOrder mode config.targetLevel prev.waterLevel
        prev.gateOpening prev.targetGateOpening := rfl

/-- The gate opening after a tick is one actuator step toward the control
law's output. -/
theorem tickSimulation_gateOpening (mode : SystemMode) (config : SimulationConfig)
    (hasOrder : Bool) (noise : ℝ) (prev : SystemState) :
    (tickSimulation mode config hasOrder noise prev).gateOpening =
      (moveGate prev.gateOpening
        (controlTarget hasOrder mode config.targetLevel prev.waterLevel
          prev.gateOpening prev.targetGateOpening)).1 := rfl

/-- The water level after a tick is the net-flow update clamped into
`[0, MAX_WATER_LEVEL]`. -/
theorem tickSimulation_waterLevel (mode : SystemMode) (config : SimulationConfig)
    (hasOrder : Bool) (noise : ℝ) (prev : SystemState) :
    (tickSimulation mode config hasOrder noise prev).waterLevel =
      min MAX_WATER_LEVEL (max 0 (prev.waterLevel +
        (((max 0 (36.0 + (if prev.isRaining then prev.rainfallIntensity * 0.3 else 0)
              + noise)) -
          computeOutflow prev.waterLevel
            (tickSimulation mode config hasOrder noise prev).gateOpening) /
          RESERVOIR_AREA) * (config.simulationSpeed / 1000))) := rfl

/-- The power drawn during a tick is the two-level motor model applied to the
actuator's `isMoving` flag. -/
theorem tickSimulation_currentPower (mode : SystemMode) (config : SimulationConfig)
    (hasOrder : Bool) (noise : ℝ) (prev : SystemState) :
    (tickSimulation mode config hasOrder noise prev).currentPower =
      (if (moveGate prev.gateOpening
            (controlTarget hasOrder mode config.targetLevel prev.waterLevel
              prev.gateOpening prev.targetGateOpening)).2
        then MOTOR_POWER_ACTIVE else MOTOR_POWER_STANDBY) := rfl

/-- Energy accumulates by `currentPower * dtHours` each tick. -/
theorem tickSimulation_totalEnergy (mode : SystemMode) (config : SimulationConfig)
    (hasOrder : Bool) (noise : ℝ) (prev : SystemState) :
    (tickSimulation mode config hasOrder noise prev).totalEnergy =
      prev.totalEnergy +
        (tickSimulation mode config hasOrder noise prev).currentPower *
          (config.simulationSpeed / 1000 / 3600) := rfl

/-- Cost is recomputed from cumulative energy each tick. -/
theorem tickSimulation_totalCost (mode : SystemMode) (config : SimulationConfig)
    (hasOrder : Bool) (noise : ℝ) (prev : SystemState) :
    (tickSimulation mode config hasOrder noise prev).totalCost =
      (tickSimulation mode config hasOrder noise prev).totalEnergy *
        ELEC_RATE_UZS := rfl

/-- The outflow recorded in the snapshot is `computeOutflow` at the previous
water level and the new gate opening. -/
theorem tickSimulation_outflowRate (mode : SystemMode) (config : SimulationConfig)
    (hasOrder : Bool) (noise : ℝ) (prev : SystemState) :
    (tickSimulation mode config hasOrder noise prev).outflowRate =
      computeOutflow prev.waterLevel
        (tickSimulation mode config hasOrder noise prev).gateOpening := rfl

/-- The recorded gate status is `determineStatus` on (previous, new) gate
openings. -/
theorem tickSimulation_gateStatus (mode : SystemMode) (config : SimulationConfig)
    (hasOrder : Bool) (noise : ℝ) (prev : SystemState) :
    (tickSimulation mode config hasOrder noise prev).gateStatus =
      determineStatus prev.gateOpening
        (tickSimulation mode config hasOrder noise prev).gateOpening := rfl

/-- The value `GATE_SPEED` unfolds to. -/
theorem GATE_SPEED_eq : GATE_SPEED = 2 := by norm_num [GATE_SPEED]

/-- The control law never leaves `[0, 100]` when the previous gate opening and
target are in `[0, 100]`. -/
theorem controlTarget_mem (hasOrder : Bool) (mode : SystemMode)
    (tl wl g t : ℝ) (hg0 : 0 ≤ g) (hg1 : g ≤ 100) (ht0 : 0 ≤ t) (ht1 : t ≤ 100) :
    0 ≤ controlTarget hasOrder mode tl wl g t ∧
      controlTarget hasOrder mode tl wl g t ≤ 100 := by
  simp only [controlTarget]
  split_ifs with h1 h2 h3 h4
  · exact ⟨by norm_num, by norm_num⟩
  · refine ⟨le_min (by norm_num) (by nlinarith), min_le_left _ _⟩
  · exact ⟨le_max_left _ _, max_le (by norm_num) (by linarith)⟩
  · exact ⟨hg0, hg1⟩
  · exact ⟨ht0, ht1⟩

/-- One actuator step stays in `[0, 100]` when the position and the target
are in `[0, 100]`. -/
theorem moveGate_mem (g t : ℝ) (hg0 : 0 ≤ g) (hg1 : g ≤ 100)
    (ht0 : 0 ≤ t) (ht1 : t ≤ 100) :
    0 ≤ (moveGate g t).1 ∧ (moveGate g t).1 ≤ 100 := by
  simp only [moveGate, GATE_SPEED_eq]
  split_ifs with h1 h2 <;> dsimp only
  · exact ⟨ht0, ht1⟩
  · have hd : 2 ≤ t - g := by
      rcases abs_cases (g - t) with ⟨he, hs⟩ | ⟨he, hs⟩ <;> push_neg at h1 <;>
        rw [he] at h1 <;> linarith
    exact ⟨by linarith, by linarith⟩
  · have hd : 2 ≤ g - t := by
      rcases abs_cases (g - t) with ⟨he, hs⟩ | ⟨he, hs⟩ <;> push_neg at h1 h2 <;>
        rw [he] at h1 <;> linarith
    exact ⟨by linarith, by linarith⟩

/-- C1: a tick, as well as either manual-jog target update, keeps
`waterLevel` in `[0, MAX_WATER_LEVEL]` and the gate opening and target in
`[0, 100]`, whatever the mode, order activity and net flow sign. -/
theorem tick_preserves_bounds (mode : SystemMode) (config : SimulationConfig)
    (hasOrder : Bool) (noise : ℝ) (dir : MoveDirection) (prev : SystemState)
    (hinv : stateBoundsOK prev) :
    stateBoundsOK (tickSimulation mode config hasOrder noise prev) ∧
    stateBoundsOK (startManualMoveInitial mode dir prev) ∧
    stateBoundsOK (startManualMoveHold dir prev) := by
  obtain ⟨hw0, hw1, hg0, hg1, ht0, ht1⟩ := hinv
  have hct := controlTarget_mem hasOrder mode config.targetLevel prev.waterLevel
    prev.gateOpening prev.targetGateOpening hg0 hg1 ht0 ht1
  have hmg := moveGate_mem prev.gateOpening _ hg0 hg1 hct.1 hct.2
  refine ⟨⟨?_, ?_, ?_, ?_, ?_, ?_⟩, ?_, ?_⟩
  · rw [tickSimulation_waterLevel]
    exact le_min (by norm_num [MAX_WATER_LEVEL]) (le_max_left 0 _)
  · rw [tickSimulation_waterLevel]
    exact min_le_left _ _
  · rw [tickSimulation_gateOpening]
    exact hmg.1
  · rw [tickSimulation_gateOpening]
    exact hmg.2
  · rw [tickSimulation_targetGateOpening]
    exact hct.1
  · rw [tickSimulation_targetGateOpening]
    exact hct.2
  · simp only [startManualMoveInitial]
    split_ifs <;>
      exact ⟨hw0, hw1, hg0, hg1, by
        first
        | exact ⟨ht0, ht1⟩
        | exact ⟨le_min (by norm_num) (by linarith), min_le_left _ _⟩
        | exact ⟨le_max_left _ _, max_le (by norm_num) (by linarith)⟩⟩
  · simp only [startManualMoveHold]
    split_ifs <;>
      exact ⟨hw0, hw1, hg0, hg1, by
        first
        | exact ⟨le_min (by norm_num) (by linarith), min_le_left _ _⟩
        | exact ⟨le_max_left _ _, max_le (by norm_num) (by linarith)⟩⟩

/-- C1 at a concrete input: the invariants hold after a tick from the sample
state in AUTO mode at the default configuration, and after both jog updates. -/
theorem tick_preserves_bounds_witness :
    stateBoundsOK (tickSimulation SystemMode.AUTO ⟨5, 200⟩ false 0 sampleState) ∧
    stateBoundsOK (startManualMoveInitial SystemMode.AUTO MoveDirection.OPEN sampleState) ∧
    stateBoundsOK (startManualMoveHold MoveDirection.OPEN sampleState) :=
  tick_preserves_bounds SystemMode.AUTO ⟨5, 200⟩ false 0 MoveDirection.OPEN sampleState
    (by norm_num [stateBoundsOK, sampleState, MAX_WATER_LEVEL])

/-- C3: the per-tick control law.  With an active order the target is forced
to 100 whatever the mode; otherwise in AUTO mode, with
`error = waterLevel - targetLevel`, an error above 0.2 gives
`min 100 (gateOpening + error * 5)`, an error below -0.2 gives
`max 0 (gateOpening - 2)`, and inside the ±0.2 dead-band the current position
is held; otherwise (MANUAL mode) the previously set target is kept. -/
theorem controlTarget_cases (mode : SystemMode) (config : SimulationConfig)
    (hasOrder : Bool) (noise : ℝ) (prev : SystemState) (tl wl g t : ℝ) :
    ((tickSimulation mode config hasOrder noise prev).targetGateOpening =
      controlTarget hasOrder mode config.targetLevel prev.waterLevel
        prev.gateOpening prev.targetGateOpening) ∧
    (controlTarget true mode tl wl g t = 100) ∧
    (wl - tl > 0.2 →
      controlTarget false SystemMode.AUTO tl wl g t = min 100 (g + (wl - tl) * 5)) ∧
    (wl - tl < -0.2 →
      controlTarget false SystemMode.AUTO tl wl g t = max 0 (g - 2)) ∧
    (-0.2 ≤ wl - tl → wl - tl ≤ 0.2 →
      controlTarget false SystemMode.AUTO tl wl g t = g) ∧
    (controlTarget false SystemMode.MANUAL tl wl g t = t) := by
  refine ⟨rfl, rfl, fun h => ?_, fun h => ?_, fun h h' => ?_, rfl⟩ <;>
    simp only [controlTarget] <;>
    split_ifs with h0 h1 h2 h3 <;> first | rfl | linarith | simp_all

/-- C4: one actuator step moves the gate by at most `GATE_SPEED`; below one
step of the target it snaps to the target, otherwise it steps by exactly
`±GATE_SPEED` toward it; at distance at most `GATE_SPEED` it reaches the
target exactly, and it never overshoots the target from either side. -/
theorem moveGate_step (mode : SystemMode) (config : SimulationConfig)
    (hasOrder : Bool) (noise : ℝ) (prev : SystemState) (g t : ℝ) :
    ((tickSimulation mode config hasOrder noise prev).gateOpening =
      (moveGate prev.gateOpening
        (tickSimulation mode config hasOrder noise prev).targetGateOpening).1) ∧
    |(moveGate g t).1 - g| ≤ GATE_SPEED ∧
    (|g - t| < GATE_SPEED → (moveGate g t).1 = t) ∧
    (GATE_SPEED ≤ |g - t| → g < t → (moveGate g t).1 = g + GATE_SPEED) ∧
    (GATE_SPEED ≤ |g - t| → t < g → (moveGate g t).1 = g - GATE_SPEED) ∧
    (|g - t| ≤ GATE_SPEED → (moveGate g t).1 = t) ∧
    (g ≤ t → g ≤ (moveGate g t).1 ∧ (moveGate g t).1 ≤ t) ∧
    (t ≤ g → t ≤ (moveGate g t).1 ∧ (moveGate g t).1 ≤ g) := by
  refine ⟨rfl, ?_⟩
  simp only [moveGate, GATE_SPEED_eq]
  split_ifs with h1 h2 <;> dsimp only
  · have ha := abs_lt.mp h1
    refine ⟨abs_le.mpr ⟨by linarith [ha.1, ha.2], by linarith [ha.1, ha.2]⟩,
      fun _ => rfl, fun hge _ => absurd hge (not_le.mpr h1),
      fun hge _ => absurd hge (not_le.mpr h1), fun _ => rfl,
      fun hc => ⟨by linarith [ha.1, ha.2], le_refl t⟩,
      fun hc => ⟨le_refl t, by linarith [ha.1, ha.2]⟩⟩
  · have hd : 2 ≤ t - g := by
      rcases abs_cases (g - t) with ⟨he, hs⟩ | ⟨he, hs⟩ <;> push_neg at h1 <;>
        rw [he] at h1 <;> linarith
    have h2eq : g + 2 - g = 2 := by ring
    refine ⟨by rw [h2eq]; norm_num, fun hlt => absurd hlt h1,
      fun _ _ => rfl, fun _ hgt => by linarith,
      fun hle => ?_, fun _ => ⟨by linarith, by linarith⟩,
      fun hc => by linarith⟩
    have hub : t - g ≤ 2 := by
      rcases abs_cases (g - t) with ⟨he, hs⟩ | ⟨he, hs⟩ <;> rw [he] at hle <;> linarith
    linarith
  · have hd : 2 ≤ g - t := by
      rcases abs_cases (g - t) with ⟨he, hs⟩ | ⟨he, hs⟩ <;> push_neg at h1 h2 <;>
        rw [he] at h1 <;> linarith
    have h2eq : g - 2 - g = -2 := by ring
    refine ⟨by rw [h2eq]; norm_num, fun hlt => absurd hlt h1,
      fun _ hgt => by linarith, fun _ _ => rfl,
      fun hle => ?_, fun hc => by linarith,
      fun _ => ⟨by linarith, by linarith⟩⟩
    have hub : g - t ≤ 2 := by
      rcases abs_cases (g - t) with ⟨he, hs⟩ | ⟨he, hs⟩ <;> rw [he] at hle <;> linarith
    linarith

/-- C5: the gate status after a tick is computed from the pair of previous and
new gate openings alone: OPENING when the position increased, CLOSING when it
decreased (both taking priority), else CLOSED at exactly 0, OPEN at exactly
100 and PARTIALLY OPEN otherwise. -/
theorem determineStatus_cases (mode : SystemMode) (config : SimulationConfig)
    (hasOrder : Bool) (noise : ℝ) (prev : SystemState) (prevGate newGate : ℝ) :
    ((tickSimulation mode config hasOrder noise prev).gateStatus =
      determineStatus prev.gateOpening
        (tickSimulation mode config hasOrder noise prev).gateOpening) ∧
    (prevGate < newGate → determineStatus prevGate newGate = GateStatus.OPENING) ∧
    (newGate < prevGate → determineStatus prevGate newGate = GateStatus.CLOSING) ∧
    (newGate = prevGate → newGate = 0 →
      determineStatus prevGate newGate = GateStatus.CLOSED) ∧
    (newGate = prevGate → newGate = 100 →
      determineStatus prevGate newGate = GateStatus.OPEN) ∧
    (newGate = prevGate → newGate ≠ 0 → newGate ≠ 100 →
      determineStatus prevGate newGate = GateStatus.PARTIALLY_OPEN) := by
  refine ⟨rfl, fun h => ?_, fun h => ?_, fun h h0 => ?_, fun h h100 => ?_,
    fun h h0 h100 => ?_⟩ <;> simp only [determineStatus]
  · rw [if_pos h]
  · rw [if_neg (by linarith), if_pos h]
  · rw [if_neg (by linarith), if_neg (by linarith), if_pos h0]
  · rw [if_neg (by linarith), if_neg (by linarith), if_neg (by rw [h100]; norm_num),
      if_pos h100]
  · rw [if_neg (by linarith), if_neg (by linarith), if_neg h0, if_neg h100]

/-- C6: each tick's outflow is the orifice integral
`(2/3) * Cd * b * sqrt(2g) * (h2^1.5 - h1^1.5)` exactly when the water level
and the gate opening height (in meters) clear the 0.01 guards, and exactly 0
otherwise; in particular it is 0 at a fully closed gate whatever the water
level, and both fractional-power arguments are non-negative whenever the
formula is evaluated. -/
theorem computeOutflow_guarded (mode : SystemMode) (config : SimulationConfig)
    (hasOrder : Bool) (noise : ℝ) (prev : SystemState) (wl go : ℝ) :
    ((tickSimulation mode config hasOrder noise prev).outflowRate =
      computeOutflow prev.waterLevel
        (tickSimulation mode config hasOrder noise prev).gateOpening) ∧
    ((wl > 0.01 ∧ (go / 100) * (MAX_GATE_HEIGHT_CM / 100) > 0.01) →
      computeOutflow wl go =
        (2 / 3) * 0.6 * 3.0 * Real.sqrt (2 * 9.81) *
          (wl ^ (1.5 : ℝ) -
            (max 0 (wl - (go / 100) * (MAX_GATE_HEIGHT_CM / 100))) ^ (1.5 : ℝ))) ∧
    (¬(wl > 0.01 ∧ (go / 100) * (MAX_GATE_HEIGHT_CM / 100) > 0.01) →
      computeOutflow wl go = 0) ∧
    (go = 0 → computeOutflow wl go = 0) ∧
    (wl ≤ 0.01 → computeOutflow wl go = 0) ∧
    ((wl > 0.01 ∧ (go / 100) * (MAX_GATE_HEIGHT_CM / 100) > 0.01) →
      0 ≤ wl ∧ 0 ≤ max 0 (wl - (go / 100) * (MAX_GATE_HEIGHT_CM / 100))) := by
  refine ⟨rfl, fun h => ?_, fun h => ?_, fun h => ?_, fun h => ?_,
    fun h => ⟨by linarith [h.1], le_max_left _ _⟩⟩
  · simp only [computeOutflow]
    rw [if_pos h]
  · simp only [computeOutflow]
    rw [if_neg h]
  · simp only [computeOutflow]
    rw [if_neg]
    rw [h]
    norm_num [MAX_GATE_HEIGHT_CM]
  · simp only [computeOutflow]
    rw [if_neg]
    exact fun hc => absurd hc.1 (not_lt.mpr h)

/-- C7: each tick's power level is one of the two positive motor levels, the
cumulative energy grows by exactly `currentPower * dt_s / 3600` (so it never
decreases for a non-negative tick period), and the cost is recomputed from
cumulative energy, satisfying `totalCost = totalEnergy * ELEC_RATE_UZS`
exactly after every tick and never decreasing across ticks. -/
theorem tick_energy_cost (mode : SystemMode) (config : SimulationConfig)
    (hasOrder : Bool) (noise : ℝ) (prev : SystemState) :
    ((tickSimulation mode config hasOrder noise prev).currentPower = MOTOR_POWER_ACTIVE ∨
      (tickSimulation mode config hasOrder noise prev).currentPower = MOTOR_POWER_STANDBY) ∧
    0 < MOTOR_POWER_ACTIVE ∧ 0 < MOTOR_POWER_STANDBY ∧ 0 < ELEC_RATE_UZS ∧
    (tickSimulation mode config hasOrder noise prev).totalEnergy =
      prev.totalEnergy +
        (tickSimulation mode config hasOrder noise prev).currentPower *
          (config.simulationSpeed / 1000 / 3600) ∧
    (tickSimulation mode config hasOrder noise prev).totalCost =
      (tickSimulation mode config hasOrder noise prev).totalEnergy * ELEC_RATE_UZS ∧
    (0 ≤ config.simulationSpeed →
      prev.totalEnergy ≤ (tickSimulation mode config hasOrder noise prev).totalEnergy) ∧
    (0 ≤ config.simulationSpeed →
      prev.totalCost = prev.totalEnergy * ELEC_RATE_UZS →
      prev.totalCost ≤ (tickSimulation mode config hasOrder noise prev).totalCost) := by
  have hpow : 0 < (tickSimulation mode config hasOrder noise prev).currentPower := by
    rw [tickSimulation_currentPower]
    split_ifs <;> norm_num [MOTOR_POWER_ACTIVE, MOTOR_POWER_STANDBY]
  have hmono : 0 ≤ config.simulationSpeed →
      prev.totalEnergy ≤ (tickSimulation mode config hasOrder noise prev).totalEnergy := by
    intro hdt
    rw [tickSimulation_totalEnergy]
    have : 0 ≤ (tickSimulation mode config hasOrder noise prev).currentPower *
        (config.simulationSpeed / 1000 / 3600) := by
      apply mul_nonneg (le_of_lt hpow)
      positivity
    linarith
  refine ⟨?_, by norm_num [MOTOR_POWER_ACTIVE], by norm_num [MOTOR_POWER_STANDBY],
    by norm_num [ELEC_RATE_UZS],
    tickSimulation_totalEnergy mode config hasOrder noise prev,
    tickSimulation_totalCost mode config hasOrder noise prev, hmono, ?_⟩
  · rw [tickSimulation_currentPower]
    split_ifs
    · exact Or.inl rfl
    · exact Or.inr rfl
  · intro hdt hcost
    rw [tickSimulation_totalCost, hcost]
    have := hmono hdt
    have hr : (0 : ℝ) ≤ ELEC_RATE_UZS := by norm_num [ELEC_RATE_UZS]
    exact mul_le_mul_of_nonneg_right this hr

/-- C2 fails on the code at a concrete input: with Alice's order ACTIVE in the
slot, a second start request installs Bob's order — the request is not
rejected and the first order is not left untouched. -/
theorem handleStartOrder_overwrite_cex :
    ((handleStartOrder 7 ("Bob") 10 ⟨some sampleOrder, none⟩).activeOrder.map
      WateringOrder.clientName = some ("Bob")) ∧
    sampleOrder.clientName = ("Alice") := ⟨rfl, rfl⟩

/-- C2 amended: `handleStartOrder` never inspects the active slot — it
unconditionally replaces it with the freshly built ACTIVE order (a silent
overwrite whenever an order was active), leaving only the last-completed slot
untouched; at most one ACTIVE order exists merely because the slot is
single. -/
theorem handleStartOrder_replaces (now : ℕ) (c : String) (hect : ℝ) (s : OrderState) :
    (handleStartOrder now c hect s).activeOrder = some
      { id := toString now
        clientName := c
        hectares := hect
        targetVolume := hect * 1000
        deliveredVolume := 0
        startTime := now
        endTime := none
        status := OrderStatus.ACTIVE
        powerConsumed := 0
        waterCost := 0 } ∧
    (handleStartOrder now c hect s).lastCompletedOrder = s.lastCompletedOrder :=
  ⟨rfl, rfl⟩

/-- C8: a started order's target volume is `hectares * 1000` and it starts
ACTIVE with nothing delivered; each tick with an active order adds
`outflow * dt_s` to the delivered volume; and the completion check promotes
an ACTIVE order to COMPLETED, stamps its end time, retains it as last
completed and clears the active slot exactly when `deliveredVolume` has
reached `targetVolume`, and leaves everything untouched before that. -/
theorem order_lifecycle (mode : SystemMode) (config : SimulationConfig)
    (noise : ℝ) (prev : SystemState) (now later : ℕ) (c : String)
    (hect q p d : ℝ) (s : OrderState) (o : WateringOrder) (hh : 0 < hect)
    (ho : o.status = OrderStatus.ACTIVE) :
    ((handleStartOrder now c hect s).activeOrder.map WateringOrder.targetVolume =
      some (hect * 1000)) ∧
    ((handleStartOrder now c hect s).activeOrder.map WateringOrder.status =
      some OrderStatus.ACTIVE) ∧
    ((handleStartOrder now c hect s).activeOrder.map WateringOrder.deliveredVolume =
      some 0) ∧
    (tickOrderUpdate q p d (some o) = some
      { o with
        deliveredVolume := o.deliveredVolume + q * d
        powerConsumed := o.powerConsumed + p * (d / 3600) }) ∧
    (tickOrderUpdate (tickSimulation mode config true noise prev).outflowRate
        (tickSimulation mode config true noise prev).currentPower
        (config.simulationSpeed / 1000) (some o) = some
      { o with
        deliveredVolume := o.deliveredVolume +
          (tickSimulation mode config true noise prev).outflowRate *
            (config.simulationSpeed / 1000)
        powerConsumed := o.powerConsumed +
          (tickSimulation mode config true noise prev).currentPower *
            (config.simulationSpeed / 1000 / 3600) }) ∧
    (o.deliveredVolume ≥ o.targetVolume →
      orderCompletionCheck later ⟨some o, s.lastCompletedOrder⟩ =
        { activeOrder := none
          lastCompletedOrder := some
            { o with status := OrderStatus.COMPLETED, endTime := some later } }) ∧
    (o.deliveredVolume < o.targetVolume →
      orderCompletionCheck later ⟨some o, s.lastCompletedOrder⟩ =
        ⟨some o, s.lastCompletedOrder⟩) := by
  refine ⟨rfl, rfl, rfl, rfl, rfl, fun hge => ?_, fun hlt => ?_⟩
  · simp only [orderCompletionCheck]
    split_ifs with hc
    · rfl
    · exact absurd ⟨hge, ho⟩ hc
  · simp only [orderCompletionCheck]
    split_ifs with hc
    · exact absurd hc.1 (not_le.mpr hlt)
    · rfl

/-- C8 at a concrete input: Alice's 50-hectare order, once 50000 m³ are
delivered, is promoted to COMPLETED with its end time stamped, retained as
last completed, and removed from the active slot. -/
theorem order_lifecycle_witness :
    orderCompletionCheck 5 ⟨some { sampleOrder with deliveredVolume := 50000 }, none⟩ =
      { activeOrder := none
        lastCompletedOrder := some
          { sampleOrder with
            deliveredVolume := 50000
            status := OrderStatus.COMPLETED
            endTime := some 5 } } := by
  have h := order_lifecycle SystemMode.AUTO ⟨5, 200⟩ 0 sampleState 0 5
    sampleOrder.clientName 50 1 1 1 ⟨none, none⟩
    { sampleOrder with deliveredVolume := 50000 } (by norm_num) rfl
  exact h.2.2.2.2.2.1 (by norm_num [sampleOrder])

/-- C9 fails on the code at a concrete input: cancelling Alice's active order
empties both slots — no record with a CANCELLED status is produced anywhere;
the order object is simply discarded. -/
theorem handleCancelOrder_cex :
    handleCancelOrder ⟨some sampleOrder, none⟩ =
      ({ activeOrder := none, lastCompletedOrder := none } : OrderState) := rfl

/-- C9 amended: cancellation clears the active slot without promoting the
order to COMPLETED, stops all further accumulation into it, leaves the
last-completed slot untouched (the cancelled order is not retained there) —
but it never writes a CANCELLED status: the order is discarded as-is. -/
theorem handleCancelOrder_clears (s : OrderState) (q p d : ℝ) :
    (handleCancelOrder s).activeOrder = none ∧
    (handleCancelOrder s).lastCompletedOrder = s.lastCompletedOrder ∧
    tickOrderUpdate q p d (handleCancelOrder s).activeOrder = none :=
  ⟨rfl, rfl, rfl⟩

/-- C10: the per-tick order update touches only `deliveredVolume` and
`powerConsumed`; every other field — id, client, hectares, target volume,
start time, status, end time and `waterCost` — is carried over unchanged, so
`waterCost` stays at its initial 0 for the order's whole lifetime, and the
report-side water cost is a function of the delivered volume alone. -/
theorem tickOrderUpdate_frame (q p d : ℝ) (o o₂ : WateringOrder) :
    ((tickOrderUpdate q p d (some o)).map WateringOrder.id = some o.id) ∧
    ((tickOrderUpdate q p d (some o)).map WateringOrder.clientName = some o.clientName) ∧
    ((tickOrderUpdate q p d (some o)).map WateringOrder.hectares = some o.hectares) ∧
    ((tickOrderUpdate q p d (some o)).map WateringOrder.targetVolume = some o.targetVolume) ∧
    ((tickOrderUpdate q p d (some o)).map WateringOrder.startTime = some o.startTime) ∧
    ((tickOrderUpdate q p d (some o)).map WateringOrder.status = some o.status) ∧
    ((tickOrderUpdate q p d (some o)).map WateringOrder.endTime = some o.endTime) ∧
    ((tickOrderUpdate q p d (some o)).map WateringOrder.waterCost = some o.waterCost) ∧
    ((tickOrderUpdate q p d (some o)).map WateringOrder.deliveredVolume =
      some (o.deliveredVolume + q * d)) ∧
    ((tickOrderUpdate q p d (some o)).map WateringOrder.powerConsumed =
      some (o.powerConsumed + p * (d / 3600))) ∧
    (o.waterCost = 0 → (tickOrderUpdate q p d (some o)).map WateringOrder.waterCost =
      some 0) ∧
    (o.deliveredVolume = o₂.deliveredVolume → reportWaterCost o = reportWaterCost o₂) := by
  refine ⟨rfl, rfl, rfl, rfl, rfl, rfl, rfl, rfl, rfl, rfl, fun hw => ?_, fun he => ?_⟩
  · simp only [tickOrderUpdate, Option.map]
    rw [hw]
  · simp only [reportWaterCost]
    rw [he]

end ADS
